import Mathlib

/-!
# Verification of the shading subsystem (`src/Lab4_Shaders/src/shaders.rs`)

A shallow embedding of the Rust shading module over the real numbers.
`f32` values are modelled as `ℝ`, `i32` values as `ℤ` (with explicit
truncation/saturation/wrapping where the Rust code converts or wraps).
Rust's `%` on floats is a truncated remainder, modelled by `rust_rem`.

The data structures `Vertex`, `Fragment`, `Uniforms`, `Light` and the
matrix/vector collaborators live outside the shading module (in the
crate root and sibling modules); they are modelled from the spec's data
model (§3) and external-interface contracts (§6).  The shading functions
themselves (`vertex_shader`, `transform_normal`, `noise`, `fractal_noise`,
`simulate_lighting`, the five planet color functions, `fragment_shader`,
`render_rings`, `render_moon`) are translated directly from the source.
-/

noncomputable section

namespace Shaders

/-- A 3-component vector of reals; models raylib's `Vector3` of `f32`. -/
structure Vec3 where
  x : ℝ
  y : ℝ
  z : ℝ

/-- A 2-component vector of reals; models raylib's `Vector2` of `f32`. -/
structure Vec2 where
  x : ℝ
  y : ℝ

/-- A homogeneous 4-component vector of reals; models raylib's `Vector4`. -/
structure Vec4 where
  x : ℝ
  y : ℝ
  z : ℝ
  w : ℝ

/-- Modelled from the spec: a 4×4 homogeneous transform matrix (§6); the
`Matrix` type itself is a collaborator defined outside the shading module. -/
structure Mat4 where
  m00 : ℝ
  m01 : ℝ
  m02 : ℝ
  m03 : ℝ
  m10 : ℝ
  m11 : ℝ
  m12 : ℝ
  m13 : ℝ
  m20 : ℝ
  m21 : ℝ
  m22 : ℝ
  m23 : ℝ
  m30 : ℝ
  m31 : ℝ
  m32 : ℝ
  m33 : ℝ

/-- Modelled from the spec: "4×4 matrix × 4-vector multiply" (§6;
`crate::matrix::multiply_matrix_vector4` is outside the shading module). -/
def multiply_matrix_vector4 (m : Mat4) (v : Vec4) : Vec4 :=
  ⟨m.m00 * v.x + m.m01 * v.y + m.m02 * v.z + m.m03 * v.w,
   m.m10 * v.x + m.m11 * v.y + m.m12 * v.z + m.m13 * v.w,
   m.m20 * v.x + m.m21 * v.y + m.m22 * v.z + m.m23 * v.w,
   m.m30 * v.x + m.m31 * v.y + m.m32 * v.z + m.m33 * v.w⟩

/-- The 4×4 identity matrix. -/
def idMat4 : Mat4 :=
  ⟨1, 0, 0, 0,
   0, 1, 0, 0,
   0, 0, 1, 0,
   0, 0, 0, 1⟩

/-- Modelled from the spec (§3): object-space position, normal, texture
coordinates, intrinsic color, and the two derived fields recomputed by the
pipeline (`crate::vertex::Vertex` is outside the shading module). -/
structure Vertex where
  position : Vec3
  normal : Vec3
  tex_coords : Vec2
  color : Vec3
  transformed_position : Vec3
  transformed_normal : Vec3

/-- Modelled from the spec (§3): screen-space position, interpolated depth
and interpolated world-space position, supplied by the external rasterizer
(`crate::fragment::Fragment` is outside the shading module). -/
structure Fragment where
  position : Vec2
  depth : ℝ
  world_position : Vec3

/-- Modelled from the spec (§3): per-draw-call configuration bundle —
four matrices, animation time, `render_type` (0 standard, 1 ring, 2 moon)
and `planet_type` (0..4) (`crate::Uniforms` is outside the shading module). -/
structure Uniforms where
  model_matrix : Mat4
  view_matrix : Mat4
  projection_matrix : Mat4
  viewport_matrix : Mat4
  time : ℝ
  render_type : ℤ
  planet_type : ℤ

/-- Modelled from the spec (§3): an external lighting descriptor, passed
through to the rasterizer; opaque to the shading module. -/
structure Light where
  position : Vec3
  direction : Vec3

/-- A single `framebuffer.point(x, y, color, depth)` call.  The external
framebuffer (§6) is modelled as the log of point-writes performed. -/
structure FBWrite where
  x : ℤ
  y : ℤ
  color : Vec3
  depth : ℝ

/-- Truncation toward zero of a real, as an integer (the rounding used by
Rust's float→int `as` casts and by float `%`). -/
def truncR (r : ℝ) : ℤ :=
  if 0 ≤ r then ⌊r⌋ else ⌈r⌉

/-- Rust's saturating `f32 as i32` cast: truncate toward zero, clamp to
the `i32` range. -/
def trunc32 (r : ℝ) : ℤ :=
  max (-(2 ^ 31)) (min (2 ^ 31 - 1) (truncR r))

/-- Wrapping `i32` arithmetic: reduce an integer into `[-2^31, 2^31)`
(the effect of `wrapping_add` / `wrapping_mul` on `i32`). -/
def wrap32 (n : ℤ) : ℤ :=
  (n + 2 ^ 31) % 2 ^ 32 - 2 ^ 31

/-- Rust's `%` on floats: `a - b * trunc(a / b)`, a truncated remainder
that keeps the sign of the dividend `a`. -/
def rust_rem (a b : ℝ) : ℝ :=
  a - b * (truncR (a / b) : ℝ)

/-- Modelled from the spec: "reduces to the fractional part via modulo 1"
(§4.1) — the mathematical fractional part `a - ⌊a⌋`, which lies in `[0, 1)`.
To be compared with the source's reduction `rust_rem · 1`. -/
def spec_fract (a : ℝ) : ℝ :=
  a - (⌊a⌋ : ℝ)

/-- raylib's `Vector3::length`: `sqrt (x² + y² + z²)`. -/
def vec3_length (v : Vec3) : ℝ :=
  Real.sqrt (v.x * v.x + v.y * v.y + v.z * v.z)

/-- `f32::atan2`: `atan2 y x` is the angle of the point `(x, y)`. -/
def atan2 (y x : ℝ) : ℝ :=
  if 0 < x then Real.arctan (y / x)
  else if x < 0 ∧ 0 ≤ y then Real.arctan (y / x) + Real.pi
  else if x < 0 then Real.arctan (y / x) - Real.pi
  else if 0 < y then Real.pi / 2
  else if y < 0 then -(Real.pi / 2)
  else 0

/-- The integer hash of `noise` (shaders.rs lines 110–114): truncate the
three coordinates to `i32` and combine them with wrapping arithmetic as
`x + 57*y + 113*z`. -/
def noise_n (pos : Vec3) : ℤ :=
  let x := trunc32 pos.x
  let y := trunc32 pos.y
  let z := trunc32 pos.z
  wrap32 (wrap32 (x + wrap32 (y * 57)) + wrap32 (z * 113))

/-- The dividend handed to `% 1.0` in `noise` (shaders.rs line 115):
`sin(n * n * 41597.5453) * 43758.5453` for the hashed `n`. -/
def noise_pre (pos : Vec3) : ℝ :=
  let n : ℝ := (noise_n pos : ℝ)
  Real.sin (n * n * 41597.5453) * 43758.5453

/-- `noise` (shaders.rs lines 109–116): hash, sine transform, then `% 1.0`. -/
def noise (pos : Vec3) : ℝ :=
  rust_rem (noise_pre pos) 1

/-- `fractal_noise` (shaders.rs lines 119–131): sum `octaves` layers of
`noise`, halving the amplitude and doubling the frequency each layer;
the loop state is the triple `(value, amplitude, frequency)`. -/
def fractal_noise (pos : Vec3) (octaves : ℤ) : ℝ :=
  ((List.range octaves.toNat).foldl
    (fun (acc : ℝ × ℝ × ℝ) _ =>
      let value := acc.1
      let amplitude := acc.2.1
      let frequency := acc.2.2
      (value + noise ⟨pos.x * frequency, pos.y * frequency, pos.z * frequency⟩ * amplitude,
       amplitude * 0.5, frequency * 2))
    (0, 1, 1)).1

/-- `simulate_lighting` (shaders.rs lines 134–151): normalize the light
direction when its length is positive, dot it with the normal, clamp to
`[0, 1]`, scale by 0.8 and add the 0.2 ambient floor. -/
def simulate_lighting (normal light_dir : Vec3) : ℝ :=
  let light_dir_length :=
    Real.sqrt (light_dir.x * light_dir.x + light_dir.y * light_dir.y +
      light_dir.z * light_dir.z)
  let normalized_light_dir : Vec3 :=
    if 0 < light_dir_length then
      ⟨light_dir.x / light_dir_length, light_dir.y / light_dir_length,
       light_dir.z / light_dir_length⟩
    else light_dir
  let intensity := normal.x * normalized_light_dir.x +
    normal.y * normalized_light_dir.y + normal.z * normalized_light_dir.z
  min (max intensity 0) 1 * 0.8 + 0.2

/-- `rotate_planet_position` (shaders.rs lines 154–165): rotation about
the Y axis by `time * rotation_speed`. -/
def rotate_planet_position (pos : Vec3) (time rotation_speed : ℝ) : Vec3 :=
  let angle := time * rotation_speed
  let cos_a := Real.cos angle
  let sin_a := Real.sin angle
  ⟨pos.x * cos_a - pos.z * sin_a, pos.y, pos.x * sin_a + pos.z * cos_a⟩

/-- `rocky_planet_color` (shaders.rs lines 168–218). -/
def rocky_planet_color (pos : Vec3) (time : ℝ) : Vec3 :=
  let rotated_pos := rotate_planet_position pos time 0.3
  let base_noise := fractal_noise rotated_pos 4
  let detail_noise :=
    fractal_noise ⟨rotated_pos.x * 8, rotated_pos.y * 8, rotated_pos.z * 8⟩ 2
  let base_color : Vec3 := ⟨0.8, 0.3, 0.1⟩
  let lava_color : Vec3 := ⟨1.0, 0.4, 0.1⟩
  let rock_color : Vec3 := ⟨0.6, 0.2, 0.05⟩
  let ash_color : Vec3 := ⟨0.3, 0.1, 0.05⟩
  let elevation := (base_noise + detail_noise * 0.3) * 0.5 + 0.5
  let lava_pattern :=
    |fractal_noise ⟨rotated_pos.x * 10, rotated_pos.y * 10, rotated_pos.z * 10⟩ 1 * 2 - 1|
  let final_color : Vec3 :=
    if 0.7 < elevation then
      ⟨rock_color.x * elevation, rock_color.y * elevation, rock_color.z * elevation⟩
    else if elevation < 0.4 then
      ⟨ash_color.x * (elevation + 0.3), ash_color.y * (elevation + 0.3),
       ash_color.z * (elevation + 0.3)⟩
    else
      ⟨base_color.x * elevation, base_color.y * elevation, base_color.z * elevation⟩
  if 0.7 < lava_pattern then
    ⟨final_color.x + lava_color.x * 0.5, final_color.y + lava_color.y * 0.3,
     final_color.z + lava_color.z * 0.2⟩
  else final_color

/-- The storm overlay of `gas_giant_color` (shaders.rs lines 269–276) as a
function of the color built so far, the storm noise sample and the rotated
Y coordinate; `storm_color` is the constant from line 243.  The blend
strength `(storm_noise - 0.8) * 5.0` is applied without any clamp. -/
def storm_blend (final_color : Vec3) (storm_noise rotated_y : ℝ) : Vec3 :=
  let storm_color : Vec3 := ⟨0.9, 0.5, 0.8⟩
  if 0.8 < storm_noise ∧ |rotated_y| < 0.3 then
    let storm_strength := (storm_noise - 0.8) * 5
    ⟨final_color.x * (1 - storm_strength) + storm_color.x * storm_strength,
     final_color.y * (1 - storm_strength) + storm_color.y * storm_strength,
     final_color.z * (1 - storm_strength) + storm_color.z * storm_strength⟩
  else final_color

/-- Modelled from the spec: the claim's storm-blend coefficient, "a linear
ramp, saturating at 1 when noise = 1.0" — i.e. `min ((s - 0.8) * 5) 1`.
To be compared with the source's unclamped `(s - 0.8) * 5`. -/
def spec_storm_strength (storm_noise : ℝ) : ℝ :=
  min ((storm_noise - 0.8) * 5) 1

/-- `gas_giant_color` (shaders.rs lines 221–279); the final storm overlay
is `storm_blend`. -/
def gas_giant_color (pos : Vec3) (time : ℝ) : Vec3 :=
  let rotated_pos := rotate_planet_position pos time 0.5
  let cloud_base :=
    fractal_noise ⟨rotated_pos.x * 3 + time * 0.1, rotated_pos.y * 3, rotated_pos.z * 3⟩ 3
  let cloud_detail :=
    fractal_noise ⟨rotated_pos.x * 8 + time * 0.2, rotated_pos.y * 8, rotated_pos.z * 8⟩ 2
  let band_pattern := Real.sin (rotated_pos.y * 4 + time * 0.05) * 0.5 + 0.5
  let base_color : Vec3 := ⟨0.6, 0.4, 0.8⟩
  let band_color1 : Vec3 := ⟨0.4, 0.6, 0.9⟩
  let band_color2 : Vec3 := ⟨0.7, 0.3, 0.9⟩
  let band_mix :=
    if 0.7 < band_pattern then band_color1
    else if band_pattern < 0.3 then band_color2
    else base_color
  let cloud_intensity := (cloud_base + cloud_detail * 0.5) * 0.5 + 0.5
  let final_color : Vec3 :=
    ⟨band_mix.x * cloud_intensity, band_mix.y * cloud_intensity,
     band_mix.z * cloud_intensity⟩
  let storm_noise :=
    fractal_noise ⟨rotated_pos.x * 2 + time * 0.05, rotated_pos.y * 2, rotated_pos.z * 2⟩ 2
  storm_blend final_color storm_noise rotated_pos.y

/-- The band value of `rainbow_planet_color` (shaders.rs lines 286–290):
`((sin(θ*3 + time*0.5)) * 0.5 + 0.5) * 6` for `θ = atan2(y, x)` of the
rotated position. -/
def rainbow_bands (pos : Vec3) (time : ℝ) : ℝ :=
  let rotated_pos := rotate_planet_position pos time 0.4
  let theta := atan2 rotated_pos.y rotated_pos.x
  (Real.sin (theta * 3 + time * 0.5) * 0.5 + 0.5) * 6

/-- The hue selection of `rainbow_planet_color` (shaders.rs lines 293–301):
match on `rainbow_bands as i32`, with a violet default arm. -/
def rainbow_hue (rainbow_bands : ℝ) : Vec3 :=
  let i := trunc32 rainbow_bands
  if i = 0 then ⟨1.0, 0.0, 0.0⟩
  else if i = 1 then ⟨1.0, 0.5, 0.0⟩
  else if i = 2 then ⟨1.0, 1.0, 0.0⟩
  else if i = 3 then ⟨0.0, 1.0, 0.0⟩
  else if i = 4 then ⟨0.0, 0.0, 1.0⟩
  else if i = 5 then ⟨0.3, 0.0, 0.5⟩
  else ⟨0.5, 0.0, 0.5⟩

/-- `rainbow_planet_color` (shaders.rs lines 282–316); the band value and
hue match are `rainbow_bands` and `rainbow_hue`. -/
def rainbow_planet_color (pos : Vec3) (time : ℝ) : Vec3 :=
  let rotated_pos := rotate_planet_position pos time 0.4
  let _phi :=
    atan2 rotated_pos.z
      (Real.sqrt (rotated_pos.x * rotated_pos.x + rotated_pos.y * rotated_pos.y))
  let color := rainbow_hue (rainbow_bands pos time)
  let pulse := Real.sin (time * 2) * 0.2 + 0.8
  let sparkle :=
    fractal_noise ⟨rotated_pos.x * 20 + time, rotated_pos.y * 20, rotated_pos.z * 20⟩ 1
  ⟨color.x * pulse + sparkle * 0.3, color.y * pulse + sparkle * 0.3,
   color.z * pulse + sparkle * 0.3⟩

/-- `glitter_planet_color` (shaders.rs lines 319–367); `powf(2.0)` on the
non-negative bases is `^ 2`. -/
def glitter_planet_color (pos : Vec3) (time : ℝ) : Vec3 :=
  let rotated_pos := rotate_planet_position pos time 0.35
  let pattern1 := Real.sin (rotated_pos.x * 4 + time * 0.3)
  let pattern2 := Real.cos (rotated_pos.y * 4 + time * 0.2)
  let _pattern3 := Real.sin (rotated_pos.z * 4 + time * 0.4)
  let base_pink : Vec3 := ⟨1.0, 0.8, 0.9⟩
  let lavender : Vec3 := ⟨0.8, 0.8, 1.0⟩
  let mint : Vec3 := ⟨0.8, 1.0, 0.9⟩
  let peach : Vec3 := ⟨1.0, 0.9, 0.8⟩
  let mix1 := (pattern1 * 0.5 + 0.5) ^ 2
  let mix2 := (pattern2 * 0.5 + 0.5) ^ 2
  let color : Vec3 :=
    if 0.6 < mix1 then
      ⟨base_pink.x * mix1 + lavender.x * (1 - mix1),
       base_pink.y * mix1 + lavender.y * (1 - mix1),
       base_pink.z * mix1 + lavender.z * (1 - mix1)⟩
    else
      ⟨mint.x * mix2 + peach.x * (1 - mix2),
       mint.y * mix2 + peach.y * (1 - mix2),
       mint.z * mix2 + peach.z * (1 - mix2)⟩
  let glitter :=
    fractal_noise ⟨rotated_pos.x * 40 + time * 4, rotated_pos.y * 40, rotated_pos.z * 40⟩ 1
  if 0.95 < glitter then ⟨color.x + 0.4, color.y + 0.4, color.z + 0.4⟩ else color

/-- `heart_planet_color` (shaders.rs lines 370–419); `powf(3.0)` is `^ 3`
(IEEE `pow` with an integral exponent, defined also for negative bases). -/
def heart_planet_color (pos : Vec3) (time : ℝ) : Vec3 :=
  let rotated_pos := rotate_planet_position pos time 0.45
  let x := rotated_pos.x
  let y := rotated_pos.y
  let z := rotated_pos.z
  let heart_shape :=
    (x * x + 9 / 4 * (y * y) + z * z - 1) ^ 3 - x * x * z ^ 3 - 9 / 80 * (y * y) * z ^ 3
  let main_color : Vec3 := ⟨1.0, 0.6, 0.8⟩
  let accent_color : Vec3 := ⟨0.9, 0.5, 0.9⟩
  let background_color : Vec3 := ⟨1.0, 0.9, 0.95⟩
  let pattern1 := Real.sin (x * 5 + time * 0.5)
  let pattern2 := Real.cos (y * 5 + time * 0.3)
  let _pattern3 := Real.sin (z * 5 + time * 0.4)
  let pattern := (pattern1 + pattern2) / 2
  let shine :=
    fractal_noise ⟨rotated_pos.x * 30 + time * 3, rotated_pos.y * 30, rotated_pos.z * 30⟩ 1
  let base_color :=
    if heart_shape < 0 then (if 0.5 < pattern then accent_color else main_color)
    else background_color
  ⟨base_color.x + shine * 0.3, base_color.y + shine * 0.3, base_color.z + shine * 0.3⟩

/-- The surface-normal normalization inside `fragment_shader`
(shaders.rs lines 429–439): divide by the length when it is positive,
otherwise return the fixed fallback `(0, 0, 1)`. -/
def normalize_fallback_z (normal : Vec3) : Vec3 :=
  let length :=
    Real.sqrt (normal.x * normal.x + normal.y * normal.y + normal.z * normal.z)
  if 0 < length then ⟨normal.x / length, normal.y / length, normal.z / length⟩
  else ⟨0, 0, 1⟩

/-- The light-direction normalization inside `fragment_shader`
(shaders.rs lines 444–454): divide by the length when it is positive,
otherwise return the fixed fallback `(1, 0, 0)`. -/
def normalize_fallback_x (v : Vec3) : Vec3 :=
  let length := Real.sqrt (v.x * v.x + v.y * v.y + v.z * v.z)
  if 0 < length then ⟨v.x / length, v.y / length, v.z / length⟩
  else ⟨1, 0, 0⟩

/-- `fragment_shader` (shaders.rs lines 421–475): normalize the fragment's
world position as the normal, normalize the fixed light `(1,1,1)`, apply
`simulate_lighting`, dispatch on `planet_type` (default rocky), and scale
the color by the intensity. -/
def fragment_shader (fragment : Fragment) (uniforms : Uniforms) : Vec3 :=
  let world_pos := fragment.world_position
  let normal := normalize_fallback_z ⟨world_pos.x, world_pos.y, world_pos.z⟩
  let light_dir := normalize_fallback_x ⟨1, 1, 1⟩
  let light_intensity := simulate_lighting normal light_dir
  let base_color :=
    if uniforms.planet_type = 0 then rocky_planet_color world_pos uniforms.time
    else if uniforms.planet_type = 1 then gas_giant_color world_pos uniforms.time
    else if uniforms.planet_type = 2 then rainbow_planet_color world_pos uniforms.time
    else if uniforms.planet_type = 3 then glitter_planet_color world_pos uniforms.time
    else if uniforms.planet_type = 4 then heart_planet_color world_pos uniforms.time
    else rocky_planet_color world_pos uniforms.time
  ⟨base_color.x * light_intensity, base_color.y * light_intensity,
   base_color.z * light_intensity⟩

/-- The geometry remapping at the head of `vertex_shader`
(shaders.rs lines 11–47): the homogeneous position after the
`match uniforms.render_type` block (1 ring, 2 moon, default unchanged). -/
def remap_position (vertex : Vertex) (uniforms : Uniforms) : Vec4 :=
  if uniforms.render_type = 1 then
    let angle := (vertex.position.x + vertex.position.z) * 3
    let radius := 1.5 + vertex.position.y * 0.1
    ⟨radius * Real.cos angle, vertex.position.y * 0.1, radius * Real.sin angle, 1⟩
  else if uniforms.render_type = 2 then
    let moon_orbit_time := uniforms.time * 0.5
    let moon_distance : ℝ := 3
    let moon_x := moon_distance * Real.cos moon_orbit_time
    let moon_z := moon_distance * Real.sin moon_orbit_time
    let moon_y := Real.sin (moon_orbit_time * 2) * 0.5
    ⟨moon_x + vertex.position.x * 0.3, moon_y + vertex.position.y * 0.3,
     moon_z + vertex.position.z * 0.3, 1⟩
  else ⟨vertex.position.x, vertex.position.y, vertex.position.z, 1⟩

/-- The perspective division of `vertex_shader` (shaders.rs lines 59–67):
divide by `w` when `w ≠ 0`, otherwise pass the clip coordinates through. -/
def ndc_of (clip_position : Vec4) : Vec3 :=
  if clip_position.w ≠ 0 then
    ⟨clip_position.x / clip_position.w, clip_position.y / clip_position.w,
     clip_position.z / clip_position.w⟩
  else ⟨clip_position.x, clip_position.y, clip_position.z⟩

/-- `transform_normal` (shaders.rs lines 90–106): multiply by the model
matrix with `w = 0`, then divide the three components in place, each by
the length recomputed after the previous division. -/
def transform_normal (normal : Vec3) (model_matrix : Mat4) : Vec3 :=
  let normal_vec4 : Vec4 := ⟨normal.x, normal.y, normal.z, 0⟩
  let transformed_normal_vec4 := multiply_matrix_vector4 model_matrix normal_vec4
  let t0 : Vec3 :=
    ⟨transformed_normal_vec4.x, transformed_normal_vec4.y, transformed_normal_vec4.z⟩
  let t1 : Vec3 := ⟨t0.x / vec3_length t0, t0.y, t0.z⟩
  let t2 : Vec3 := ⟨t1.x, t1.y / vec3_length t1, t1.z⟩
  ⟨t2.x, t2.y, t2.z / vec3_length t2⟩

/-- `vertex_shader` (shaders.rs lines 11–88): remap, model→view→projection,
perspective divide, viewport, and the `transform_normal` of the normal. -/
def vertex_shader (vertex : Vertex) (uniforms : Uniforms) : Vertex :=
  let position_vec4 := remap_position vertex uniforms
  let world_position := multiply_matrix_vector4 uniforms.model_matrix position_vec4
  let view_position := multiply_matrix_vector4 uniforms.view_matrix world_position
  let clip_position := multiply_matrix_vector4 uniforms.projection_matrix view_position
  let ndc := ndc_of clip_position
  let ndc_vec4 : Vec4 := ⟨ndc.x, ndc.y, ndc.z, 1⟩
  let screen_position := multiply_matrix_vector4 uniforms.viewport_matrix ndc_vec4
  let transformed_position : Vec3 :=
    ⟨screen_position.x, screen_position.y, screen_position.z⟩
  { position := vertex.position
    normal := vertex.normal
    tex_coords := vertex.tex_coords
    color := vertex.color
    transformed_position := transformed_position
    transformed_normal := transform_normal vertex.normal uniforms.model_matrix }

/-- The derived uniforms of `render_rings` (shaders.rs lines 479–480):
a clone of the caller's uniforms with `render_type` set to 1. -/
def ring_uniforms (uniforms : Uniforms) : Uniforms :=
  { uniforms with render_type := 1 }

/-- The derived uniforms of `render_moon` (shaders.rs lines 516–517):
a clone of the caller's uniforms with `render_type` set to 2. -/
def moon_uniforms (uniforms : Uniforms) : Uniforms :=
  { uniforms with render_type := 2 }

/-- The triangle grouping of the overlay renderers (shaders.rs
lines 488–497): consecutive disjoint triples, trailing remainder dropped. -/
def group_triples : List Vertex → List (Vertex × Vertex × Vertex)
  | a :: b :: c :: rest => (a, b, c) :: group_triples rest
  | _ => []

/-- `render_rings` (shaders.rs lines 478–513), with the external rasterizer
`triangle` as a parameter and the framebuffer as the log of point-writes:
transform every vertex with the ring uniforms, group into triangles,
rasterize, and write every fragment with the fixed gold color. -/
def render_rings (triangle : Vertex → Vertex → Vertex → Light → List Fragment)
    (uniforms : Uniforms) (vertex_array : List Vertex) (light : Light) :
    List FBWrite :=
  let transformed_vertices :=
    vertex_array.map (fun vertex => vertex_shader vertex (ring_uniforms uniforms))
  let triangles := group_triples transformed_vertices
  let fragments := triangles.flatMap (fun tri => triangle tri.1 tri.2.1 tri.2.2 light)
  fragments.map (fun fragment =>
    let ring_color : Vec3 := ⟨0.8, 0.7, 0.6⟩
    ⟨trunc32 fragment.position.x, trunc32 fragment.position.y, ring_color,
     fragment.depth⟩)

/-- `render_moon` (shaders.rs lines 515–550): as `render_rings`, with the
moon uniforms and the fixed pale gray color. -/
def render_moon (triangle : Vertex → Vertex → Vertex → Light → List Fragment)
    (uniforms : Uniforms) (vertex_array : List Vertex) (light : Light) :
    List FBWrite :=
  let transformed_vertices :=
    vertex_array.map (fun vertex => vertex_shader vertex (moon_uniforms uniforms))
  let triangles := group_triples transformed_vertices
  let fragments := triangles.flatMap (fun tri => triangle tri.1 tri.2.1 tri.2.2 light)
  fragments.map (fun fragment =>
    let moon_color : Vec3 := ⟨0.9, 0.9, 0.8⟩
    ⟨trunc32 fragment.position.x, trunc32 fragment.position.y, moon_color,
     fragment.depth⟩)

/-- Sample uniforms with identity matrices, used by concrete witnesses. -/
def sampleUniforms : Uniforms :=
  ⟨idMat4, idMat4, idMat4, idMat4, 0, 0, 0⟩

/-- Sample vertex at the origin, used by concrete witnesses. -/
def sampleVertex : Vertex :=
  ⟨⟨0, 0, 0⟩, ⟨0, 0, 1⟩, ⟨0, 0⟩, ⟨1, 1, 1⟩, ⟨0, 0, 0⟩, ⟨0, 0, 0⟩⟩

/-- Sample fragment, used by concrete witnesses. -/
def sampleFragment : Fragment :=
  ⟨⟨0, 0⟩, 0, ⟨1, 2, 3⟩⟩

/-- C6: under `render_type = 1` the ring remapping yields a position whose
`y` is `0.1` times the original `y` (hence of magnitude at most `0.1`
times the original magnitude) and whose `x² + z²` equals `radius²` for
`radius = 1.5 + 0.1 * y` — here exactly, not merely within tolerance. -/
theorem ring_remap_y_scale_and_radius (vertex : Vertex) (uniforms : Uniforms)
    (h : uniforms.render_type = 1) :
    (remap_position vertex uniforms).y = 0.1 * vertex.position.y ∧
    |(remap_position vertex uniforms).y| ≤ 0.1 * |vertex.position.y| ∧
    (remap_position vertex uniforms).x ^ 2 + (remap_position vertex uniforms).z ^ 2
      = (1.5 + vertex.position.y * 0.1) ^ 2 := by
  have hsc := Real.sin_sq_add_cos_sq ((vertex.position.x + vertex.position.z) * 3)
  simp only [remap_position, h, if_pos]
  refine ⟨by ring, ?_, by nlinarith [hsc]⟩
  rw [abs_mul]
  have : |(0.1 : ℝ)| = 0.1 := by norm_num
  nlinarith [abs_nonneg vertex.position.y]

/-- Witness for C6 at a concrete vertex and ring uniforms. -/
theorem ring_remap_y_scale_and_radius_witness :
    ({ sampleUniforms with render_type := 1 } : Uniforms).render_type = 1 ∧
    ((remap_position sampleVertex { sampleUniforms with render_type := 1 }).y
        = 0.1 * sampleVertex.position.y ∧
      |(remap_position sampleVertex { sampleUniforms with render_type := 1 }).y|
        ≤ 0.1 * |sampleVertex.position.y| ∧
      (remap_position sampleVertex { sampleUniforms with render_type := 1 }).x ^ 2 +
          (remap_position sampleVertex { sampleUniforms with render_type := 1 }).z ^ 2
        = (1.5 + sampleVertex.position.y * 0.1) ^ 2) :=
  ⟨rfl, ring_remap_y_scale_and_radius sampleVertex _ rfl⟩

/-- C7: the perspective division passes the clip coordinates through
unchanged when `w = 0`, and divides each of `x`, `y`, `z` by `w` when
`w ≠ 0`; `vertex_shader` computes its NDC exactly through `ndc_of`. -/
theorem ndc_division_policy (clip_position : Vec4) :
    (clip_position.w = 0 →
      ndc_of clip_position = ⟨clip_position.x, clip_position.y, clip_position.z⟩) ∧
    (clip_position.w ≠ 0 →
      ndc_of clip_position =
        ⟨clip_position.x / clip_position.w, clip_position.y / clip_position.w,
         clip_position.z / clip_position.w⟩) := by
  constructor <;> intro h <;> simp [ndc_of, h]

/-- Witness for C7: a zero-`w` clip vector passes through, a `w = 2` clip
vector is divided by 2. -/
theorem ndc_division_policy_witness :
    ((Vec4.mk 1 2 3 0).w = 0 ∧ ndc_of ⟨1, 2, 3, 0⟩ = ⟨1, 2, 3⟩) ∧
    ((Vec4.mk 2 4 6 2).w ≠ 0 ∧ ndc_of ⟨2, 4, 6, 2⟩ = ⟨2 / 2, 4 / 2, 6 / 2⟩) :=
  ⟨⟨rfl, (ndc_division_policy ⟨1, 2, 3, 0⟩).1 rfl⟩,
   ⟨by norm_num, (ndc_division_policy ⟨2, 4, 6, 2⟩).2 (by norm_num)⟩⟩

/-- C8: when `planet_type` is outside `0..4`, `fragment_shader` returns
exactly the color it would return with `planet_type = 0`. -/
theorem planet_type_out_of_range_fallback (fragment : Fragment) (uniforms : Uniforms)
    (h : uniforms.planet_type < 0 ∨ 4 < uniforms.planet_type) :
    fragment_shader fragment uniforms =
      fragment_shader fragment { uniforms with planet_type := 0 } := by
  have h0 : ¬uniforms.planet_type = 0 := by rcases h with h | h <;> omega
  have h1 : ¬uniforms.planet_type = 1 := by rcases h with h | h <;> omega
  have h2 : ¬uniforms.planet_type = 2 := by rcases h with h | h <;> omega
  have h3 : ¬uniforms.planet_type = 3 := by rcases h with h | h <;> omega
  have h4 : ¬uniforms.planet_type = 4 := by rcases h with h | h <;> omega
  simp only [fragment_shader, h0, h1, h2, h3, h4, if_false]
  norm_num

/-- Witness for C8 at `planet_type = 7`. -/
theorem planet_type_out_of_range_fallback_witness :
    (({ sampleUniforms with planet_type := 7 } : Uniforms).planet_type < 0 ∨
      4 < ({ sampleUniforms with planet_type := 7 } : Uniforms).planet_type) ∧
    fragment_shader sampleFragment { sampleUniforms with planet_type := 7 } =
      fragment_shader sampleFragment
        { { sampleUniforms with planet_type := 7 } with planet_type := 0 } :=
  ⟨Or.inr (by norm_num [sampleUniforms]),
   planet_type_out_of_range_fallback sampleFragment _
     (Or.inr (by norm_num [sampleUniforms]))⟩

/-- C9: the overlay renderers operate on a derived copy of the caller's
uniforms — same four matrices, same `time`, same `planet_type`, with
`render_type` set to 1 (rings) or 2 (moon) — and their output never
depends on the caller's own `render_type` field (the base uniforms value
is read, never altered: the embedding is pure, matching Rust's `&Uniforms`
borrow plus `clone`). -/
theorem overlay_uniforms_derived_copy (uniforms : Uniforms) :
    (ring_uniforms uniforms).render_type = 1 ∧
    (moon_uniforms uniforms).render_type = 2 ∧
    (ring_uniforms uniforms).model_matrix = uniforms.model_matrix ∧
    (ring_uniforms uniforms).view_matrix = uniforms.view_matrix ∧
    (ring_uniforms uniforms).projection_matrix = uniforms.projection_matrix ∧
    (ring_uniforms uniforms).viewport_matrix = uniforms.viewport_matrix ∧
    (ring_uniforms uniforms).time = uniforms.time ∧
    (ring_uniforms uniforms).planet_type = uniforms.planet_type ∧
    (moon_uniforms uniforms).model_matrix = uniforms.model_matrix ∧
    (moon_uniforms uniforms).view_matrix = uniforms.view_matrix ∧
    (moon_uniforms uniforms).projection_matrix = uniforms.projection_matrix ∧
    (moon_uniforms uniforms).viewport_matrix = uniforms.viewport_matrix ∧
    (moon_uniforms uniforms).time = uniforms.time ∧
    (moon_uniforms uniforms).planet_type = uniforms.planet_type ∧
    (∀ (triangle : Vertex → Vertex → Vertex → Light → List Fragment)
        (vertex_array : List Vertex) (light : Light) (rt : ℤ),
      render_rings triangle { uniforms with render_type := rt } vertex_array light =
        render_rings triangle uniforms vertex_array light) ∧
    (∀ (triangle : Vertex → Vertex → Vertex → Light → List Fragment)
        (vertex_array : List Vertex) (light : Light) (rt : ℤ),
      render_moon triangle { uniforms with render_type := rt } vertex_array light =
        render_moon triangle uniforms vertex_array light) := by
  cases uniforms
  exact ⟨rfl, rfl, rfl, rfl, rfl, rfl, rfl, rfl, rfl, rfl, rfl, rfl, rfl, rfl,
    fun _ _ _ _ => rfl, fun _ _ _ _ => rfl⟩

/-- C1 counterexample: `transform_normal` does NOT return a unit vector
for positive-length input.  With the identity model matrix and the input
normal `(1, 1, 0)` (length `√2 > 0`), the three in-place divisions — each
by a length recomputed after the previous division — produce a vector
whose squared length is `7/6`, not `1` (off by `1/6 > 0.1`, far beyond
floating tolerance), so the claimed unit-length guarantee fails at the
`transform_normal` normalization site. -/
theorem transform_normal_not_unit_cex :
    (transform_normal ⟨1, 1, 0⟩ idMat4).x * (transform_normal ⟨1, 1, 0⟩ idMat4).x +
      (transform_normal ⟨1, 1, 0⟩ idMat4).y * (transform_normal ⟨1, 1, 0⟩ idMat4).y +
      (transform_normal ⟨1, 1, 0⟩ idMat4).z * (transform_normal ⟨1, 1, 0⟩ idMat4).z
      = 7 / 6 ∧ ((7 : ℝ) / 6 ≠ 1) ∧ ((1 : ℝ) + 1 / 10 < 7 / 6) := by
  have h2 : Real.sqrt 2 * Real.sqrt 2 = 2 := Real.mul_self_sqrt (by norm_num)
  have hval : transform_normal ⟨1, 1, 0⟩ idMat4 =
      ⟨1 / Real.sqrt 2, 1 / Real.sqrt (3 / 2), 0⟩ := by
    simp only [transform_normal, multiply_matrix_vector4, idMat4, vec3_length,
      Vec3.mk.injEq]
    norm_num
    have e1 : ((Real.sqrt 2)⁻¹ * (Real.sqrt 2)⁻¹ : ℝ) = 1 / 2 := by
      rw [← mul_inv, h2]; norm_num
    rw [e1, show ((1 : ℝ) / 2 + 1) = 3 / 2 by norm_num,
      Real.sqrt_div (by norm_num : (0 : ℝ) ≤ 3), inv_div]
  have k : (1 : ℝ) / Real.sqrt 2 * (1 / Real.sqrt 2) = 1 / 2 := by
    rw [div_mul_div_comm, one_mul, h2]
  have k2 : (1 : ℝ) / Real.sqrt (3 / 2) * (1 / Real.sqrt (3 / 2)) = 2 / 3 := by
    rw [div_mul_div_comm, one_mul, Real.mul_self_sqrt (by norm_num : (0 : ℝ) ≤ 3 / 2)]
    norm_num
  refine ⟨?_, by norm_num, by norm_num⟩
  rw [hval]
  show 1 / Real.sqrt 2 * (1 / Real.sqrt 2) +
    1 / Real.sqrt (3 / 2) * (1 / Real.sqrt (3 / 2)) + 0 * 0 = 7 / 6
  rw [k, k2]
  norm_num

/-- C1 amended: the two normalization sites inside `fragment_shader`
satisfy the stated policy — for positive-length input the result has
squared length exactly 1 (so no NaN/Infinity can arise from the division),
and for zero-length input the documented fixed fallbacks `(0,0,1)`
(surface normal) and `(1,0,0)` (light direction) are returned.
`transform_normal`, by contrast, has no zero-length guard and its
recomputed-length divisions generally yield a non-unit vector (see the
counterexample). -/
theorem fragment_normalization_policy (v : Vec3) :
    (0 < v.x * v.x + v.y * v.y + v.z * v.z →
      ((normalize_fallback_z v).x * (normalize_fallback_z v).x +
        (normalize_fallback_z v).y * (normalize_fallback_z v).y +
        (normalize_fallback_z v).z * (normalize_fallback_z v).z = 1 ∧
       (normalize_fallback_x v).x * (normalize_fallback_x v).x +
        (normalize_fallback_x v).y * (normalize_fallback_x v).y +
        (normalize_fallback_x v).z * (normalize_fallback_x v).z = 1)) ∧
    (v.x * v.x + v.y * v.y + v.z * v.z = 0 →
      normalize_fallback_z v = ⟨0, 0, 1⟩ ∧ normalize_fallback_x v = ⟨1, 0, 0⟩) := by
  constructor
  · intro h
    have hL : 0 < Real.sqrt (v.x * v.x + v.y * v.y + v.z * v.z) :=
      Real.sqrt_pos.mpr h
    have hs : Real.sqrt (v.x * v.x + v.y * v.y + v.z * v.z) *
        Real.sqrt (v.x * v.x + v.y * v.y + v.z * v.z) =
        v.x * v.x + v.y * v.y + v.z * v.z :=
      Real.mul_self_sqrt (le_of_lt h)
    constructor
    · simp only [normalize_fallback_z]
      rw [if_pos hL]
      show v.x / _ * (v.x / _) + v.y / _ * (v.y / _) + v.z / _ * (v.z / _) = 1
      rw [div_mul_div_comm, div_mul_div_comm, div_mul_div_comm,
        div_add_div_same, div_add_div_same, hs]
      exact div_self (ne_of_gt h)
    · simp only [normalize_fallback_x]
      rw [if_pos hL]
      show v.x / _ * (v.x / _) + v.y / _ * (v.y / _) + v.z / _ * (v.z / _) = 1
      rw [div_mul_div_comm, div_mul_div_comm, div_mul_div_comm,
        div_add_div_same, div_add_div_same, hs]
      exact div_self (ne_of_gt h)
  · intro h
    constructor
    · simp only [normalize_fallback_z]
      rw [h, Real.sqrt_zero, if_neg (lt_irrefl 0)]
    · simp only [normalize_fallback_x]
      rw [h, Real.sqrt_zero, if_neg (lt_irrefl 0)]

/-- Witness for C1 (amended) at the positive-length input `(0, 0, 2)` and
the zero-length input `(0, 0, 0)`. -/
theorem fragment_normalization_policy_witness :
    ((0 : ℝ) < 0 * 0 + 0 * 0 + 2 * 2 ∧
      ((normalize_fallback_z ⟨0, 0, 2⟩).x * (normalize_fallback_z ⟨0, 0, 2⟩).x +
        (normalize_fallback_z ⟨0, 0, 2⟩).y * (normalize_fallback_z ⟨0, 0, 2⟩).y +
        (normalize_fallback_z ⟨0, 0, 2⟩).z * (normalize_fallback_z ⟨0, 0, 2⟩).z = 1 ∧
       (normalize_fallback_x ⟨0, 0, 2⟩).x * (normalize_fallback_x ⟨0, 0, 2⟩).x +
        (normalize_fallback_x ⟨0, 0, 2⟩).y * (normalize_fallback_x ⟨0, 0, 2⟩).y +
        (normalize_fallback_x ⟨0, 0, 2⟩).z * (normalize_fallback_x ⟨0, 0, 2⟩).z = 1)) ∧
    ((0 : ℝ) * 0 + 0 * 0 + 0 * 0 = 0 ∧
      normalize_fallback_z ⟨0, 0, 0⟩ = ⟨0, 0, 1⟩ ∧
      normalize_fallback_x ⟨0, 0, 0⟩ = ⟨1, 0, 0⟩) :=
  ⟨⟨by norm_num, (fragment_normalization_policy ⟨0, 0, 2⟩).1 (by norm_num)⟩,
   ⟨by norm_num, (fragment_normalization_policy ⟨0, 0, 0⟩).2 (by norm_num)⟩⟩

/-- The clamp-scale-offset `min (max I 0) 1 * 0.8 + 0.2` always lies in
`[0.2, 1]`, whatever the raw intensity `I`. -/
theorem ambient_clamp_bounds (I : ℝ) :
    0.2 ≤ min (max I 0) 1 * 0.8 + 0.2 ∧ min (max I 0) 1 * 0.8 + 0.2 ≤ 1 := by
  have h0 : 0 ≤ min (max I 0) 1 := le_min (le_max_right I 0) (by norm_num)
  have h1 : min (max I 0) 1 ≤ 1 := min_le_right _ _
  constructor <;> nlinarith

/-- C2: `simulate_lighting` always returns a value in `[0.2, 1]`, and for
pre-normalized inputs (both of unit length, per the stated precondition)
it returns exactly `clamp(dot(normal, light_dir), 0, 1) * 0.8 + 0.2`. -/
theorem simulate_lighting_formula_and_bounds (normal light_dir : Vec3) :
    (0.2 ≤ simulate_lighting normal light_dir ∧
      simulate_lighting normal light_dir ≤ 1) ∧
    (normal.x * normal.x + normal.y * normal.y + normal.z * normal.z = 1 →
      light_dir.x * light_dir.x + light_dir.y * light_dir.y +
          light_dir.z * light_dir.z = 1 →
      simulate_lighting normal light_dir =
        min (max (normal.x * light_dir.x + normal.y * light_dir.y +
          normal.z * light_dir.z) 0) 1 * 0.8 + 0.2) := by
  constructor
  · simp only [simulate_lighting]
    exact ambient_clamp_bounds _
  · intro _ hl
    simp only [simulate_lighting, hl, Real.sqrt_one]
    rw [if_pos (by norm_num)]
    norm_num

/-- Witness for C2 at the unit vectors `(1,0,0)` and `(0,1,0)`. -/
theorem simulate_lighting_formula_witness :
    ((1 : ℝ) * 1 + 0 * 0 + 0 * 0 = 1) ∧ ((0 : ℝ) * 0 + 1 * 1 + 0 * 0 = 1) ∧
    simulate_lighting ⟨1, 0, 0⟩ ⟨0, 1, 0⟩ =
      min (max ((1 : ℝ) * 0 + 0 * 1 + 0 * 0) 0) 1 * 0.8 + 0.2 :=
  ⟨by norm_num, by norm_num,
   (simulate_lighting_formula_and_bounds ⟨1, 0, 0⟩ ⟨0, 1, 0⟩).2 (by norm_num)
     (by norm_num)⟩

/-- C4 counterexample: the storm blend coefficient of the code is the
unclamped ramp `(s - 0.8) * 5`; at the storm-noise sample `1.1` (inside
the activation region, `1.1 > 0.8`, `|0| < 0.3`) it equals `1.5`, which
exceeds 1 and differs from the spec's saturating coefficient
`spec_storm_strength 1.1 = 1`; the blended color then overshoots the
storm color itself (x-channel `1.35 > 0.9`). -/
theorem storm_strength_exceeds_one_cex :
    storm_blend ⟨0, 0, 0⟩ 1.1 0 = ⟨1.35, 0.75, 1.2⟩ ∧
    ((1.1 : ℝ) - 0.8) * 5 = 1.5 ∧ ¬(((1.1 : ℝ) - 0.8) * 5 ≤ 1) ∧
    spec_storm_strength 1.1 = 1 ∧
    ((1.1 : ℝ) - 0.8) * 5 ≠ spec_storm_strength 1.1 := by
  refine ⟨?_, by norm_num, by norm_num, ?_, ?_⟩
  · simp only [storm_blend]
    rw [if_pos (by norm_num)]
    simp only [Vec3.mk.injEq]
    norm_num
  · simp only [spec_storm_strength]
    norm_num
  · simp only [spec_storm_strength]
    norm_num

/-- C4 amended: the storm blend activates exactly when the storm-noise
sample exceeds 0.8 and the rotated Y has magnitude below 0.3; the blend
strength toward the storm color `(0.9, 0.5, 0.8)` is the unclamped linear
ramp `(s - 0.8) * 5`, which equals 1 exactly when the sample is `1.0` and
stays at most 1 only for samples at most `1.0`. -/
theorem storm_blend_policy (final_color : Vec3) (storm_noise rotated_y : ℝ) :
    (¬(0.8 < storm_noise ∧ |rotated_y| < 0.3) →
      storm_blend final_color storm_noise rotated_y = final_color) ∧
    (0.8 < storm_noise → |rotated_y| < 0.3 →
      storm_blend final_color storm_noise rotated_y =
        ⟨final_color.x * (1 - (storm_noise - 0.8) * 5) + 0.9 * ((storm_noise - 0.8) * 5),
         final_color.y * (1 - (storm_noise - 0.8) * 5) + 0.5 * ((storm_noise - 0.8) * 5),
         final_color.z * (1 - (storm_noise - 0.8) * 5) + 0.8 * ((storm_noise - 0.8) * 5)⟩) ∧
    (((1 : ℝ) - 0.8) * 5 = 1) ∧
    (storm_noise ≤ 1 → (storm_noise - 0.8) * 5 ≤ 1) := by
  refine ⟨?_, ?_, by norm_num, fun h => by nlinarith⟩
  · intro h
    simp only [storm_blend]
    rw [if_neg h]
  · intro h1 h2
    simp only [storm_blend]
    rw [if_pos ⟨h1, h2⟩]

/-- Witness for C4 (amended) at an active sample `0.9` and an inactive
sample `0.5`. -/
theorem storm_blend_policy_witness :
    (¬((0.8 : ℝ) < 0.5 ∧ |(0 : ℝ)| < 0.3) ∧ storm_blend ⟨0, 0, 0⟩ 0.5 0 = ⟨0, 0, 0⟩) ∧
    ((0.8 : ℝ) < 0.9 ∧ |(0 : ℝ)| < 0.3 ∧
      storm_blend ⟨0, 0, 0⟩ 0.9 0 =
        ⟨0 * (1 - ((0.9 : ℝ) - 0.8) * 5) + 0.9 * (((0.9 : ℝ) - 0.8) * 5),
         0 * (1 - ((0.9 : ℝ) - 0.8) * 5) + 0.5 * (((0.9 : ℝ) - 0.8) * 5),
         0 * (1 - ((0.9 : ℝ) - 0.8) * 5) + 0.8 * (((0.9 : ℝ) - 0.8) * 5)⟩) ∧
    ((0.9 : ℝ) ≤ 1 ∧ ((0.9 : ℝ) - 0.8) * 5 ≤ 1) :=
  ⟨⟨by norm_num, (storm_blend_policy ⟨0, 0, 0⟩ 0.5 0).1 (by norm_num)⟩,
   ⟨by norm_num, by norm_num,
    (storm_blend_policy ⟨0, 0, 0⟩ 0.9 0).2.1 (by norm_num) (by norm_num)⟩,
   ⟨by norm_num, (storm_blend_policy ⟨0, 0, 0⟩ 0.9 0).2.2.2 (by norm_num)⟩⟩

/-- C5: whenever the band value lies in `[5, 6)` the truncated index is 5
and the indigo hue `(0.3, 0, 0.5)` is selected; whenever the band value is
exactly `6.0` the truncation yields 6 and the violet default branch
`(0.5, 0, 0.5)` is selected. -/
theorem rainbow_band_truncation (pos : Vec3) (time : ℝ) :
    (5 ≤ rainbow_bands pos time → rainbow_bands pos time < 6 →
      trunc32 (rainbow_bands pos time) = 5 ∧
      rainbow_hue (rainbow_bands pos time) = ⟨0.3, 0.0, 0.5⟩) ∧
    (rainbow_bands pos time = 6 →
      trunc32 (rainbow_bands pos time) = 6 ∧
      rainbow_hue (rainbow_bands pos time) = ⟨0.5, 0.0, 0.5⟩) := by
  constructor
  · intro h5 h6
    have hb : (0 : ℝ) ≤ rainbow_bands pos time := le_trans (by norm_num) h5
    have hf : ⌊rainbow_bands pos time⌋ = 5 :=
      Int.floor_eq_iff.mpr ⟨by exact_mod_cast h5, by push_cast; linarith⟩
    have ht : trunc32 (rainbow_bands pos time) = 5 := by
      simp only [trunc32, truncR, if_pos hb, hf]
      norm_num
    refine ⟨ht, ?_⟩
    simp only [rainbow_hue, ht]
    norm_num
  · intro h6
    have hb : (0 : ℝ) ≤ rainbow_bands pos time := by rw [h6]; norm_num
    have hf : ⌊rainbow_bands pos time⌋ = 6 := by
      rw [h6]
      exact Int.floor_eq_iff.mpr ⟨by norm_num, by norm_num⟩
    have ht : trunc32 (rainbow_bands pos time) = 6 := by
      simp only [trunc32, truncR, if_pos hb, hf]
      norm_num
    refine ⟨ht, ?_⟩
    simp only [rainbow_hue, ht]
    norm_num

/-- Witness position whose angle is `π/9`, giving a band value in `[5, 6)`. -/
def bandPosIndigo : Vec3 := ⟨Real.cos (Real.pi / 9), Real.sin (Real.pi / 9), 0⟩

/-- Witness position whose angle is `π/6`, giving the band value exactly 6. -/
def bandPosViolet : Vec3 := ⟨Real.cos (Real.pi / 6), Real.sin (Real.pi / 6), 0⟩

/-- At time 0 the rotation angle is 0, so the rotation is the identity. -/
theorem rotate_at_time_zero (pos : Vec3) (speed : ℝ) :
    rotate_planet_position pos 0 speed = ⟨pos.x, pos.y, pos.z⟩ := by
  simp [rotate_planet_position]

/-- `atan2` recovers the angle of a point on the unit circle in the right
half-plane. -/
theorem atan2_cos_sin (a : ℝ) (h₁ : -(Real.pi / 2) < a) (h₂ : a < Real.pi / 2) :
    atan2 (Real.sin a) (Real.cos a) = a := by
  have hc : 0 < Real.cos a := Real.cos_pos_of_mem_Ioo (Set.mem_Ioo.mpr ⟨h₁, h₂⟩)
  simp only [atan2, if_pos hc]
  rw [← Real.tan_eq_sin_div_cos, Real.arctan_tan h₁ h₂]

/-- Witness for C5: at the angle `π/9` the band value is `3√3/2 + 3 ∈ [5,6)`
and indigo is selected; at the angle `π/6` the band value is exactly 6 and
the violet default is selected. -/
theorem rainbow_band_truncation_witness :
    (5 ≤ rainbow_bands bandPosIndigo 0 ∧ rainbow_bands bandPosIndigo 0 < 6 ∧
      rainbow_hue (rainbow_bands bandPosIndigo 0) = ⟨0.3, 0.0, 0.5⟩) ∧
    (rainbow_bands bandPosViolet 0 = 6 ∧
      trunc32 (rainbow_bands bandPosViolet 0) = 6 ∧
      rainbow_hue (rainbow_bands bandPosViolet 0) = ⟨0.5, 0.0, 0.5⟩) := by
  have hpi := Real.pi_pos
  have hb1 : rainbow_bands bandPosIndigo 0 = 3 * Real.sqrt 3 / 2 + 3 := by
    simp only [rainbow_bands, rotate_at_time_zero, bandPosIndigo]
    rw [atan2_cos_sin (Real.pi / 9) (by linarith) (by linarith),
      show Real.pi / 9 * 3 + 0 * 0.5 = Real.pi / 3 by ring, Real.sin_pi_div_three]
    ring
  have hs3 : Real.sqrt 3 * Real.sqrt 3 = 3 := Real.mul_self_sqrt (by norm_num)
  have h3nn : (0 : ℝ) ≤ Real.sqrt 3 := Real.sqrt_nonneg 3
  have h5 : 5 ≤ rainbow_bands bandPosIndigo 0 := by rw [hb1]; nlinarith
  have h6 : rainbow_bands bandPosIndigo 0 < 6 := by rw [hb1]; nlinarith
  have hb2 : rainbow_bands bandPosViolet 0 = 6 := by
    simp only [rainbow_bands, rotate_at_time_zero, bandPosViolet]
    rw [atan2_cos_sin (Real.pi / 6) (by linarith) (by linarith),
      show Real.pi / 6 * 3 + 0 * 0.5 = Real.pi / 2 by ring, Real.sin_pi_div_two]
    norm_num
  exact ⟨⟨h5, h6, ((rainbow_band_truncation bandPosIndigo 0).1 h5 h6).2⟩,
    ⟨hb2, (rainbow_band_truncation bandPosViolet 0).2 hb2⟩⟩

/-- The truncated remainder by 1 always lies in the open interval `(-1, 1)`
(not `[0, 1)`: it keeps the dividend's sign). -/
theorem rust_rem_one_bounds (t : ℝ) : -1 < rust_rem t 1 ∧ rust_rem t 1 < 1 := by
  simp only [rust_rem, div_one, one_mul, truncR]
  by_cases h : 0 ≤ t
  · rw [if_pos h]
    have h1 := Int.floor_le t
    have h2 := Int.lt_floor_add_one t
    constructor <;> push_cast at * <;> linarith
  · rw [if_neg h]
    have h1 := Int.le_ceil t
    have h2 := Int.ceil_lt_add_one t
    constructor <;> push_cast at * <;> linarith

/-- A negative dividend yields a non-positive truncated remainder by 1. -/
theorem rust_rem_one_nonpos (t : ℝ) (h : t < 0) : rust_rem t 1 ≤ 0 := by
  simp only [rust_rem, div_one, one_mul, truncR, if_neg (not_le.mpr h)]
  have h1 := Int.le_ceil t
  linarith

/-- The hash of the position `(2, 0, 0)` is 2. -/
theorem noise_n_at_two : noise_n ⟨2, 0, 0⟩ = 2 := by
  have hf2 : ⌊(2 : ℝ)⌋ = 2 := Int.floor_eq_iff.mpr ⟨by norm_num, by norm_num⟩
  have h2 : trunc32 (2 : ℝ) = 2 := by
    simp only [trunc32, truncR, if_pos (by norm_num : (0 : ℝ) ≤ 2), hf2]
    norm_num
  have h0 : trunc32 (0 : ℝ) = 0 := by
    simp only [trunc32, truncR, if_pos le_rfl, Int.floor_zero]
    norm_num
  simp only [noise_n, h2, h0]
  norm_num [wrap32]

/-- The argument of the sine at the hash 2, namely `2 * 2 * 41597.5453 =
166390.1812`, lies in `(52963·π, 52964·π)` (an odd π-interval), so its
sine is negative. -/
theorem sin_at_hash_two_neg : Real.sin (166390.1812 : ℝ) < 0 := by
  have hπ₁ := Real.pi_gt_d6
  have hπ₂ := Real.pi_lt_d6
  have h1 : 0 < (166390.1812 : ℝ) - 52963 * Real.pi := by nlinarith
  have h2 : (166390.1812 : ℝ) - 52963 * Real.pi < Real.pi := by nlinarith
  have h3 : 0 < Real.sin ((166390.1812 : ℝ) - 52963 * Real.pi) :=
    Real.sin_pos_of_pos_of_lt_pi h1 h2
  have key : Real.sin ((166390.1812 : ℝ) - 52963 * Real.pi + Real.pi +
      (26481 : ℕ) * (2 * Real.pi)) =
      -Real.sin ((166390.1812 : ℝ) - 52963 * Real.pi) := by
    rw [Real.sin_add_nat_mul_two_pi, Real.sin_add_pi]
  have harg : (166390.1812 : ℝ) = (166390.1812 : ℝ) - 52963 * Real.pi + Real.pi +
      (26481 : ℕ) * (2 * Real.pi) := by
    push_cast
    ring
  rw [harg, key]
  linarith

/-- The sine-product dividend at the position `(2, 0, 0)` is negative. -/
theorem noise_pre_at_two_neg : noise_pre ⟨2, 0, 0⟩ < 0 := by
  have hpre : noise_pre ⟨2, 0, 0⟩ = Real.sin (166390.1812 : ℝ) * 43758.5453 := by
    simp only [noise_pre, noise_n_at_two]
    norm_num
  rw [hpre]
  exact mul_neg_of_neg_of_pos sin_at_hash_two_neg (by norm_num)

/-- C3 counterexample: the reduction step of `noise` is Rust's `% 1.0`, a
truncated remainder, NOT the fractional part: at the concrete dividend
`-1/2` it returns `-1/2`, which is negative and differs from the
fractional part `1/2`, so the reduced value does not lie in `[0, 1)`.
Negative dividends genuinely reach this reduction: at the position
`(2, 0, 0)` the sine-product dividend is provably negative, and the noise
value there is non-positive (it could only avoid being a counterexample
to `[0, 1)` membership by the sine product landing exactly on an
integer). -/
theorem noise_not_fractional_part_cex :
    rust_rem (-(1 / 2)) 1 = -(1 / 2) ∧
    spec_fract (-(1 / 2)) = 1 / 2 ∧
    ¬((0 : ℝ) ≤ rust_rem (-(1 / 2)) 1) ∧
    noise_pre ⟨2, 0, 0⟩ < 0 ∧
    noise ⟨2, 0, 0⟩ ≤ 0 := by
  have hceil : ⌈(-(1 / 2) : ℝ)⌉ = 0 := by
    rw [Int.ceil_neg]
    rw [show ⌊(1 / 2 : ℝ)⌋ = 0 from Int.floor_eq_iff.mpr ⟨by norm_num, by norm_num⟩]
    norm_num
  have hrr : rust_rem (-(1 / 2)) 1 = -(1 / 2) := by
    simp only [rust_rem, div_one, one_mul, truncR,
      if_neg (by norm_num : ¬(0 : ℝ) ≤ -(1 / 2)), hceil]
    norm_num
  refine ⟨hrr, ?_, by rw [hrr]; norm_num, noise_pre_at_two_neg, ?_⟩
  · simp only [spec_fract]
    rw [show ⌊(-(1 / 2) : ℝ)⌋ = -1 from Int.floor_eq_iff.mpr ⟨by norm_num, by norm_num⟩]
    norm_num
  · exact rust_rem_one_nonpos _ noise_pre_at_two_neg

/-- C3 amended: `noise` hashes the truncated integer parts via
`x + 57*y + 113*z` (with wrapping 32-bit arithmetic), applies
`sin(n² · 41597.5453) * 43758.5453`, and reduces via Rust's `% 1.0` — a
truncated remainder that keeps the dividend's sign.  The result therefore
lies in the open interval `(-1, 1)`, and it is the fractional part (hence
in `[0, 1)`) exactly on the branch where the sine product is
non-negative. -/
theorem noise_truncated_remainder_range (pos : Vec3) :
    noise pos = rust_rem (noise_pre pos) 1 ∧
    (-1 < noise pos ∧ noise pos < 1) ∧
    (0 ≤ noise_pre pos →
      noise pos = spec_fract (noise_pre pos) ∧ 0 ≤ noise pos ∧ noise pos < 1) := by
  refine ⟨rfl, rust_rem_one_bounds _, fun h => ?_⟩
  have heq : noise pos = noise_pre pos - (⌊noise_pre pos⌋ : ℝ) := by
    simp only [noise, rust_rem, div_one, one_mul, truncR, if_pos h]
  have h1 := Int.floor_le (noise_pre pos)
  have h2 := Int.lt_floor_add_one (noise_pre pos)
  refine ⟨by rw [heq]; rfl, by rw [heq]; linarith, by rw [heq]; linarith⟩

/-- Witness for C3 (amended) at the origin, where the hash is 0, the sine
product is 0, and the noise value is the fractional part 0. -/
theorem noise_truncated_remainder_range_witness :
    (0 : ℝ) ≤ noise_pre ⟨0, 0, 0⟩ ∧
    (noise ⟨0, 0, 0⟩ = spec_fract (noise_pre ⟨0, 0, 0⟩) ∧
      0 ≤ noise ⟨0, 0, 0⟩ ∧ noise ⟨0, 0, 0⟩ < 1) := by
  have h0 : trunc32 (0 : ℝ) = 0 := by
    simp only [trunc32, truncR, if_pos le_rfl, Int.floor_zero]
    norm_num
  have hn0 : noise_n ⟨0, 0, 0⟩ = 0 := by
    simp only [noise_n, h0]
    norm_num [wrap32]
  have hpre0 : noise_pre ⟨0, 0, 0⟩ = 0 := by
    simp [noise_pre, hn0]
  exact ⟨le_of_eq hpre0.symm,
    (noise_truncated_remainder_range ⟨0, 0, 0⟩).2.2 (le_of_eq hpre0.symm)⟩

/-- C10: the transformed normal produced by `vertex_shader` depends only on
the input normal and the model matrix — any two uniforms agreeing on the
model matrix (whatever their `render_type` or `time`) give the same
transformed normal. -/
theorem transformed_normal_independent_of_render_type (vertex : Vertex)
    (u₁ u₂ : Uniforms) (h : u₁.model_matrix = u₂.model_matrix) :
    (vertex_shader vertex u₁).transformed_normal =
      (vertex_shader vertex u₂).transformed_normal ∧
    (vertex_shader vertex u₁).transformed_normal =
      transform_normal vertex.normal u₁.model_matrix := by
  constructor
  · show transform_normal vertex.normal u₁.model_matrix =
      transform_normal vertex.normal u₂.model_matrix
    rw [h]
  · rfl

/-- Witness for C10: ring uniforms at a later time against the base
uniforms give the same transformed normal. -/
theorem transformed_normal_independent_witness :
    (sampleUniforms.model_matrix =
      ({ sampleUniforms with render_type := 1, time := 5 } : Uniforms).model_matrix) ∧
    (vertex_shader sampleVertex sampleUniforms).transformed_normal =
      (vertex_shader sampleVertex
        { sampleUniforms with render_type := 1, time := 5 }).transformed_normal :=
  ⟨rfl,
   (transformed_normal_independent_of_render_type sampleVertex sampleUniforms
     { sampleUniforms with render_type := 1, time := 5 } rfl).1⟩

end Shaders
